import Mathlib

/-!
# Radius — navigation-containment core, shallow embedding

Verification development for the dual-layer navigation-containment system of
the Radius proxy: the iframe interceptor (`src/utils/iframe-interceptor.ts`),
the CAPTCHA network patches (`src/utils/captcha-handler.ts`) and the service
worker fetch handler (`public/sw.js`).  Pure functions are translated to Lean
functions; DOM / window mutation becomes explicit state passing; thrown
exceptions become `Except` values.
-/

namespace Radius

/-- Does `hay` start with `needle`?  (Character-list helper.) -/
def leadsWith : List Char → List Char → Bool
  | [], _ => true
  | _ :: _, [] => false
  | n :: ns, h :: hs => (n = h) && leadsWith ns hs

/-- Does `needle` occur as a contiguous run inside `hay`?  (Character-list
helper.) -/
def hasRun (needle : List Char) : List Char → Bool
  | [] => needle.isEmpty
  | c :: rest => leadsWith needle (c :: rest) || hasRun needle rest

/-- JavaScript `hay.includes(needle)`: substring containment, modelled on the
character lists of the two strings. -/
def strIncludes (hay needle : String) : Bool :=
  hasRun needle.toList hay.toList

/-- Allowlist `CAPTCHA_DOMAINS` of `iframe-interceptor.ts` (lines 347-353): the fixed
allowlist consulted by `isCaptchaUrl`. -/
def CAPTCHA_DOMAINS : List String :=
  ["recaptcha", "hcaptcha", "turnstile", "challenges.cloudflare.com",
   "gstatic.com/recaptcha"]

/-- JavaScript `url.toLowerCase()`, modelled character-wise (the allowlist
entries and the URLs of interest are ASCII). -/
def strLower (s : String) : String :=
  String.mk (s.toList.map Char.toLower)

/-- Gate `isCaptchaUrl` (iframe-interceptor.ts lines 358-361): lowercases the URL
and tests whether it contains any allowlist entry. -/
def isCaptchaUrl (url : String) : Bool :=
  CAPTCHA_DOMAINS.any (fun domain => strIncludes (strLower url) domain)

/-- Allowlist `CAPTCHA_DOMAINS` of `captcha-handler.ts` (lines 10-20): a distinct, wider
allowlist used by the network-request patches. -/
def CAPTCHA_DOMAINS_NET : List String :=
  ["google.com", "recaptcha.net", "gstatic.com", "hcaptcha.com",
   "cloudflare.com", "challenges.cloudflare.com", "yandex.com", "yandex.ru",
   "smartcaptcha.yandexcloud.net"]

/-- The fetch gate of `enhanceNetworkRequests` (captcha-handler.ts line 232):
`CAPTCHA_DOMAINS.some((domain) => url.includes(domain))` — note: no
lowercasing, so the match is case-sensitive. -/
def isCaptchaRequest (url : String) : Bool :=
  CAPTCHA_DOMAINS_NET.any (fun domain => strIncludes url domain)

/-! Part: The overridden `window.open` (iframe-interceptor.ts lines 385-421) -/

/-- The inert stand-in returned for an intercepted call: the `get` trap of the
Proxy (line 414) always yields `null`, modelled as `none`. -/
def proxyGetTrap (_propertyName : String) : Option String :=
  none

/-- The `set` trap of the Proxy (line 417) always returns `true`: writes
succeed without throwing. -/
def proxySetTrap (_propertyName : String) (_value : String) : Bool :=
  true

/-- What the override returns: `null` (no URL), the original primitive's
result on the unmodified arguments (trusted URL), or the inert Proxy. -/
inductive OpenOutcome where
  | nullReturn : OpenOutcome
  | forwarded (url : String) (target features : Option String) : OpenOutcome
  | standIn : OpenOutcome
deriving DecidableEq, Repr

/-- The overridden `iframeWindow.open` (lines 388-421).  The empty string
models a missing/falsy `url` argument.  The second component is the list of
URLs handed to `onNavigate` during the call. -/
def openOverride (url : String) (target features : Option String) :
    OpenOutcome × List String :=
  if url = "" then (.nullReturn, [])
  else if isCaptchaUrl url then (.forwarded url target features, [])
  else (.standIn, [url])

/-- Function `setupIframeInterceptor` wires `onNavigate` to
`iframe.src = encodeURL(url)` (lines 534-537): the override's emitted intents
become exactly the writes of the embedding element's address. -/
def openViaFrame (encodeURL : String → String) (url : String)
    (target features : Option String) : OpenOutcome × List String :=
  let r := openOverride url target features
  (r.1, r.2.map encodeURL)

/-! Part: Installation state of a realm (C2, C3)

`injectIframeInterceptor` captures the *current* `open` / `postMessage` and
installs a wrapper around it; a chain of wrappers records how often that
happened. -/

/-- A patched primitive: the pre-patch original, or a wrapper captured around
whatever was current at install time. -/
inductive PatchChain where
  | original : PatchChain
  | wrapper (inner : PatchChain) : PatchChain
deriving DecidableEq, Repr

/-- Number of wrappers stacked on the pre-patch primitive. -/
def wrapperCount : PatchChain → Nat
  | .original => 0
  | .wrapper inner => wrapperCount inner + 1

/-- How many times calling the outermost `open` of the chain with `url`
reaches the pre-patch original: each wrapper (lines 388-421) forwards only
trusted, nonempty URLs to what it captured. -/
def openCallsOriginal : PatchChain → String → Nat
  | .original, _ => 1
  | .wrapper inner, url =>
      if url = "" then 0
      else if isCaptchaUrl url then openCallsOriginal inner url
      else 0

/-- A document realm's interception state: the `open` chain, the
`postMessage` chain, and the number of capture-phase click listeners
attached to the document. -/
structure Realm where
  openImpl : PatchChain
  pmImpl : PatchChain
  clickListeners : Nat
deriving DecidableEq, Repr

/-- A realm nothing has touched (`Uninstalled`). -/
def realm0 : Realm :=
  { openImpl := .original, pmImpl := .original, clickListeners := 0 }

/-- One same-origin run of `injectIframeInterceptor` (lines 370-512): patch
`postMessage` (line 382), wrap the current `open` (lines 385-421), attach one
more capture-phase click listener (lines 428-458).  No step tests whether the
realm is already patched. -/
def installInterceptor (r : Realm) : Realm :=
  { openImpl := .wrapper r.openImpl
    pmImpl := .wrapper r.pmImpl
    clickListeners := r.clickListeners + 1 }

/-! Part: Frame attachment and cross-origin failure (C3) -/

/-- Whether the embedded realm may be touched from the parent page: a
cross-origin realm raises a `SecurityError` on access. -/
inductive RealmAccess where
  | sameOrigin : RealmAccess
  | crossOrigin : RealmAccess
deriving DecidableEq, Repr

/-- The platform's realm-access violation (`SecurityError`). -/
inductive InstallError where
  | realmAccessViolation : InstallError
deriving DecidableEq, Repr

/-- Function `injectIframeInterceptor` (lines 370-512): its whole body sits in
`try ... catch` (lines 379-511), so on a cross-origin realm every patching
step's violation is caught and logged and the realm is left untouched
(`Uninstalled`); the function is total — no error escapes it. -/
def injectInterceptorOn (access : RealmAccess) (r : Realm) : Realm :=
  match access with
  | .crossOrigin => r
  | .sameOrigin => installInterceptor r

/-- The embedding `<iframe>` element as `setupIframeInterceptor` sees it at
bind time. -/
structure IframeEl where
  hasContentWindow : Bool
  access : RealmAccess
  readyComplete : Bool
deriving DecidableEq, Repr

/-- Function `setupIframeInterceptor` (lines 521-547): attaches the load listener,
then — outside any `try` — probes
`iframe.contentWindow.document.readyState` (line 544).  On a cross-origin
realm that property read raises the realm-access violation, which nothing in
`setupIframeInterceptor` catches, so it propagates to the caller as
`.error`. -/
def setupInterceptorAtBind (el : IframeEl) (r : Realm) :
    Except InstallError Realm :=
  if el.hasContentWindow then
    match el.access with
    | .crossOrigin => .error .realmAccessViolation
    | .sameOrigin =>
        if el.readyComplete then .ok (injectInterceptorOn .sameOrigin r)
        else .ok r
  else .ok r

/-! Part: Click interception (iframe-interceptor.ts lines 428-458) -/

/-- One DOM element on the chain from the click target up to the root, as the
handler reads it: its tag name, its `target` attribute, and its resolved
`href` IDL value (the empty string when the element has no `href`
attribute). -/
structure ElemInfo where
  tag : String
  targetAttr : Option String
  href : String
deriving DecidableEq, Repr

/-- The recognized new-context markers (lines 443, 469): `target="_blank"`
and `target="_new"`, compared exactly. -/
def isNewContextMarker : Option String → Bool
  | some t => t = "_blank" || t = "_new"
  | none => false

/-- The walk-up loop (lines 434-436): from the event target through its
parents to the nearest element whose tag name is `"A"`. -/
def findAnchor : List ElemInfo → Option ElemInfo
  | [] => none
  | e :: rest => if e.tag = "A" then some e else findAnchor rest

/-- What one dispatch of the capture-phase click handler does. -/
structure ClickOutcome where
  defaultPrevented : Bool
  propagationStopped : Bool
  navIntents : List String
deriving DecidableEq, Repr

/-- The click listener body (lines 430-456): find the nearest enclosing
anchor; if it carries a new-context marker, suppress the default action and
propagation, then emit an intent only when the anchor's resolved `href` is
nonempty (`if (href)`, line 448). -/
def handleClick (chain : List ElemInfo) : ClickOutcome :=
  match findAnchor chain with
  | some anchor =>
      if isNewContextMarker anchor.targetAttr then
        { defaultPrevented := true
          propagationStopped := true
          navIntents := if anchor.href = "" then [] else [anchor.href] }
      else { defaultPrevented := false, propagationStopped := false, navIntents := [] }
  | none => { defaultPrevented := false, propagationStopped := false, navIntents := [] }

/-- The third argument of `doc.addEventListener("click", ..., true)`
(line 457): the listener runs in the capture phase. -/
def clickListenerUseCapture : Bool :=
  true

/-- The redirects of the embedding element produced by one click, once
`setupIframeInterceptor` has tied `onNavigate` to
`iframe.src = encodeURL(url)` (lines 534-537). -/
def clickRedirects (encodeURL : String → String) (chain : List ElemInfo) :
    List String :=
  (handleClick chain).navIntents.map encodeURL

/-! Part: The MutationObserver over added nodes (lines 461-495) -/

/-- A DOM element subtree: tag name, `target` attribute, children.  The DOM
(unlike the HTML parser) places no restriction on nesting, so an anchor may
hold further anchors. -/
inductive DomNode where
  | elem (tag : String) (targetAttr : Option String) (children : List DomNode) :
      DomNode

mutual

/-- The effect of the `querySelectorAll`-plus-`removeAttribute` branch
(lines 475-480) on one subtree: every anchor in it loses a new-context
marker.  (Applied below only to the *children* of a non-anchor added node,
since `querySelectorAll` matches descendants.) -/
def stripMarkersDeep : DomNode → DomNode
  | .elem tag tAttr children =>
      .elem tag
        (if tag = "A" && isNewContextMarker tAttr then none else tAttr)
        (stripMarkersDeepList children)

/-- List version of `stripMarkersDeep`. -/
def stripMarkersDeepList : List DomNode → List DomNode
  | [] => []
  | n :: ns => stripMarkersDeep n :: stripMarkersDeepList ns

end

mutual

/-- Is some anchor of the subtree (the node itself included) still carrying a
new-context marker? -/
def hasMarkedAnchor : DomNode → Bool
  | .elem tag tAttr children =>
      (tag = "A" && isNewContextMarker tAttr) || hasMarkedAnchorList children

/-- List version of `hasMarkedAnchor`. -/
def hasMarkedAnchorList : List DomNode → Bool
  | [] => false
  | n :: ns => hasMarkedAnchor n || hasMarkedAnchorList ns

end

/-- The observer callback's handling of ONE added node (lines 463-481): if
the node is itself an anchor, only its own marker attribute is removed
(lines 467-472); otherwise the marker of every descendant anchor found by
`querySelectorAll` is removed (lines 473-480).  The callback never invokes
`onNavigate`, so the second component — the emitted intents — is `[]`. -/
def observeAddedNode (node : DomNode) : DomNode × List String :=
  match node with
  | .elem tag tAttr children =>
      if tag = "A" then
        (.elem tag (if isNewContextMarker tAttr then none else tAttr) children, [])
      else
        (.elem tag tAttr (stripMarkersDeepList children), [])

/-- An added anchor (no marker of its own) holding a marker anchor as child:
DOM insertion of a subtree reports only its root in `addedNodes`. -/
def nestedAnchorNode : DomNode :=
  .elem "A" none [.elem "A" (some "_blank") []]

/-! Part: Transferable sanitizing (iframe-interceptor.ts lines 555-649) -/

/-- A value that might appear in a `postMessage` transfer list, tagged with
an id so distinct objects of one kind stay distinguishable. -/
inductive Transferable where
  | arrayBuffer (id : Nat) : Transferable
  | messagePort (id : Nat) : Transferable
  | imageBitmap (id : Nat) : Transferable
  | offscreenCanvas (id : Nat) : Transferable
  | readableStream (id : Nat) : Transferable
  | writableStream (id : Nat) : Transferable
  | transformStream (id : Nat) : Transferable
  | plainObject (id : Nat) : Transferable
deriving DecidableEq, Repr

/-- Which capability-tested constructors exist in the current runtime: the
`typeof X !== "undefined"` guards of lines 642-646. -/
structure RuntimeCaps where
  hasImageBitmap : Bool
  hasOffscreenCanvas : Bool
  hasReadableStream : Bool
  hasWritableStream : Bool
  hasTransformStream : Bool
deriving DecidableEq, Repr

/-- A runtime where every capability-tested constructor exists. -/
def capsAll : RuntimeCaps :=
  { hasImageBitmap := true, hasOffscreenCanvas := true,
    hasReadableStream := true, hasWritableStream := true,
    hasTransformStream := true }

/-- The predicate of `filterValidTransferables` (lines 637-647): binary
buffers and message endpoints always pass; bitmap/canvas/stream handles pass
when their constructor exists; anything else is dropped. -/
def isValidTransferable (caps : RuntimeCaps) : Transferable → Bool
  | .arrayBuffer _ => true
  | .messagePort _ => true
  | .imageBitmap _ => caps.hasImageBitmap
  | .offscreenCanvas _ => caps.hasOffscreenCanvas
  | .readableStream _ => caps.hasReadableStream
  | .writableStream _ => caps.hasWritableStream
  | .transformStream _ => caps.hasTransformStream
  | .plainObject _ => false

/-- Filtering done by `filterValidTransferables` (lines 636-649): `transfer.filter(...)`. -/
def filterValidTransferables (caps : RuntimeCaps) (transfer : List Transferable) :
    List Transferable :=
  transfer.filter (isValidTransferable caps)

/-- The transfer list the patched `postMessage` forwards on its first attempt,
for either calling convention (lines 578-598): a present list is filtered, an
absent one stays absent. -/
def forwardedTransfer (caps : RuntimeCaps) :
    Option (List Transferable) → Option (List Transferable)
  | none => none
  | some t => some (filterValidTransferables caps t)

/-- Errors the underlying message-send primitive can raise: the data-clone
violation, or any other platform error (e.g. a `SyntaxError` for a malformed
target origin). -/
inductive PMErr where
  | dataClone : PMErr
  | otherErr : PMErr
deriving DecidableEq, Repr

/-- The wrapped `postMessage` of `fixPostMessage` (lines 563-626), one
old-signature call with a transfer list, against a primitive `prim` (called
with `some list` = transfer list passed, `none` = no transfer argument).
Returns the surfaced result and the transcript of primitive invocations:
first attempt with the filtered list (lines 592-598); on a `DataCloneError`
one retry without a transfer list (lines 601-618); the retry's outcome —
success or its own error (line 621) — is what the caller sees; any other
error is rethrown at once (line 624). -/
def wrappedPostMessage (prim : Option (List Transferable) → Except PMErr Unit)
    (caps : RuntimeCaps) (transfer : List Transferable) :
    Except PMErr Unit × List (Option (List Transferable)) :=
  let filtered := some (filterValidTransferables caps transfer)
  match prim filtered with
  | .ok u => (.ok u, [filtered])
  | .error .dataClone =>
      (match prim none with
       | .ok u => (.ok u, [filtered, none])
       | .error e2 => (.error e2, [filtered, none]))
  | .error .otherErr => (.error .otherErr, [filtered])

/-- A primitive failing with a non-clone error on every invocation. -/
def primAlwaysOther : Option (List Transferable) → Except PMErr Unit :=
  fun _ => .error .otherErr

/-- A primitive failing with the data-clone violation on every invocation. -/
def primAlwaysClone : Option (List Transferable) → Except PMErr Unit :=
  fun _ => .error .dataClone

/-! Part: CAPTCHA network-request patching (captcha-handler.ts lines 218-265) -/

/-- The parts of a fetch `init` the gate rewrites. -/
structure FetchInit where
  credentials : Option String
  acceptHeader : Option String
  mode : Option String
deriving DecidableEq, Repr

/-- Body of the `window.fetch` override (lines 223-251): requests whose URL passes
`isCaptchaRequest` get `credentials = "include"`, an `Accept` header and
`mode = "cors"` filled in where unset; all other requests keep their `init`
untouched. -/
def enhanceFetchInit (url : String) (init : FetchInit) : FetchInit :=
  if isCaptchaRequest url then
    { credentials :=
        if init.credentials = none then some "include" else init.credentials
      acceptHeader :=
        if init.acceptHeader = none then some "*/*" else init.acceptHeader
      mode :=
        if init.mode = none || init.mode = some "navigate" then some "cors"
        else init.mode }
  else init

/-! Part: The service worker's fetch handler (public/sw.js lines 10-44) -/

/-- A completed HTTP response as the fetch boundary sees it. -/
structure HttpResponse where
  contentType : String
  body : String
  contentLength : Nat
  status : Nat
deriving DecidableEq, Repr

/-- The handler's hard-coded failure response (sw.js lines 36-39). -/
def proxyFailureResponse : HttpResponse :=
  { contentType := "", body := "Proxy request failed", contentLength := 20,
    status := 500 }

/-- The fetch listener (sw.js lines 10-44): route to UV, Scramjet or plain
fetch and return that response as is; on a thrown error, retry with plain
fetch once, else answer 500.  `primary` is the routed fetcher's outcome and
`retry` the plain retry's outcome.  No branch transforms a
delivered response body: the file defines no INTERCEPTOR_SCRIPT and no
injectInterceptorScript. -/
def swHandleFetch (primary retry : Except Unit HttpResponse) : HttpResponse :=
  match primary with
  | .ok response => response
  | .error _ =>
      match retry with
      | .ok response => response
      | .error _ => proxyFailureResponse

/-- Index of the first occurrence of `needle` in `hay` (character lists). -/
def findRunIdx (needle : List Char) : List Char → Nat → Option Nat
  | [], i => if needle.isEmpty then some i else none
  | c :: rest, i =>
      if leadsWith needle (c :: rest) then some i
      else findRunIdx needle rest (i + 1)

/-- Splice `payload` into `body` immediately after the first occurrence of
`anchor`; `none` when the anchor does not occur. -/
def spliceAfter (body anchor payload : List Char) : Option (List Char) :=
  match findRunIdx anchor body 0 with
  | none => none
  | some i =>
      some (body.take (i + anchor.length) ++ payload ++
            body.drop (i + anchor.length))

/-- Modelled from the spec: the fixed interceptor-script payload (the
INTERCEPTOR_SCRIPT constant that IFRAME_INTERCEPTION.md places in
public/sw.js is absent from the source files). -/
def INTERCEPTOR_SCRIPT : String :=
  "<script>/* proxy interceptor */</script>"

/-- Modelled from the spec: the Response Injection Pipeline's
`maybeInject(response)` — return non-HTML responses unchanged; otherwise
splice the fixed payload immediately after the first matching anchor among
head-open, body-open and html-open, in that priority order; with no anchor
the body passes through; the content-length header is recomputed to the new
body's length (bodies here are ASCII, so characters are bytes).  The
function documented in IFRAME_INTERCEPTION.md as `injectInterceptorScript`
in public/sw.js does not exist in the source files. -/
def specMaybeInject (r : HttpResponse) : HttpResponse :=
  if strIncludes r.contentType "text/html" = false then r
  else
    let payload := INTERCEPTOR_SCRIPT.toList
    match spliceAfter r.body.toList "<head>".toList payload with
    | some nb =>
        { r with body := String.mk nb, contentLength := nb.length }
    | none =>
        match spliceAfter r.body.toList "<body>".toList payload with
        | some nb =>
            { r with body := String.mk nb, contentLength := nb.length }
        | none =>
            match spliceAfter r.body.toList "<html>".toList payload with
            | some nb =>
                { r with body := String.mk nb, contentLength := nb.length }
            | none => r

/-- A proxied HTML response holding a head-open anchor. -/
def htmlHeadResponse : HttpResponse :=
  { contentType := "text/html"
    body := "<html><head></head><body>hi</body></html>"
    contentLength := 41
    status := 200 }

/-- Both historical `postMessage` calling conventions, as `fixPostMessage`
distinguishes them (lines 572-598). -/
inductive PMCallConvention where
  | oldSig (targetOrigin : Option String) (transfer : Option (List Transferable)) :
      PMCallConvention
  | newSig (transfer : Option (List Transferable)) : PMCallConvention
deriving DecidableEq, Repr

/-- Transfer list forwarded on the first attempt, per calling convention:
the options-object path filters `options.transfer` (lines 581-583), the
positional path filters the third argument (lines 592-596). -/
def conventionForwardedTransfer (caps : RuntimeCaps) :
    PMCallConvention → Option (List Transferable)
  | .oldSig _ t => forwardedTransfer caps t
  | .newSig t => forwardedTransfer caps t

/-- Anchor with the new-context marker but no `href` attribute (the
resolved `href` IDL value of such an anchor is the empty string). -/
def hrefFreeMarkerAnchor : ElemInfo :=
  { tag := "A", targetAttr := some "_blank", href := "" }

/-- Chain of a click whose target sits inside a marked anchor: a `SPAN`
inside `<a target="_blank" href="https://x.test/p">` inside `BODY`. -/
def blankChain : List ElemInfo :=
  [{ tag := "SPAN", targetAttr := none, href := "" },
   { tag := "A", targetAttr := some "_blank", href := "https://x.test/p" },
   { tag := "BODY", targetAttr := none, href := "" }]

/-- Shared lemma: the absent attribute is no marker. -/
theorem isNewContextMarker_none : isNewContextMarker none = false := rfl

mutual

/-- Shared lemma: stripping leaves no marked anchor anywhere in a subtree. -/
theorem hasMarkedAnchor_strip :
    ∀ n : DomNode, hasMarkedAnchor (stripMarkersDeep n) = false
  | .elem tag tAttr children => by
      have hl := hasMarkedAnchorList_strip children
      cases h : (tag = "A" && isNewContextMarker tAttr)
      · simp [stripMarkersDeep, hasMarkedAnchor, h, hl]
      · rw [Bool.and_eq_true] at h
        obtain ⟨h1, h2⟩ := h
        have h1a : tag = "A" := of_decide_eq_true h1
        subst h1a
        simp [stripMarkersDeep, hasMarkedAnchor, h2, hl, isNewContextMarker_none]

/-- Shared lemma: list version of `hasMarkedAnchor_strip`. -/
theorem hasMarkedAnchorList_strip :
    ∀ l : List DomNode, hasMarkedAnchorList (stripMarkersDeepList l) = false
  | [] => rfl
  | n :: ns => by
      simp [stripMarkersDeepList, hasMarkedAnchorList,
            hasMarkedAnchor_strip n, hasMarkedAnchorList_strip ns]

end

/-! Claim theorems -/

/-- C1.  The claim says the network-intermediary pipeline splices the
interceptor script into HTML responses and recomputes content-length.  The
service worker's fetch handler in fact delivers every successfully proxied
response byte-identical — HTML included — because public/sw.js contains no
INTERCEPTOR_SCRIPT and no injectInterceptorScript, contradicting
IFRAME_INTERCEPTION.md; the spec-modelled pipeline `specMaybeInject` shows
what the documented behavior would have produced on the same response. -/
theorem c1_service_worker_delivers_html_unchanged :
    swHandleFetch (.ok htmlHeadResponse) (.error ()) = htmlHeadResponse ∧
    (∀ (response : HttpResponse) (retry : Except Unit HttpResponse),
        swHandleFetch (.ok response) retry = response) ∧
    strIncludes htmlHeadResponse.contentType "text/html" = true ∧
    strIncludes htmlHeadResponse.body "<head>" = true ∧
    strIncludes (swHandleFetch (.ok htmlHeadResponse) (.error ())).body
      "<script" = false ∧
    (specMaybeInject htmlHeadResponse).body =
      "<html><head>" ++ INTERCEPTOR_SCRIPT ++ "</head><body>hi</body></html>" ∧
    (specMaybeInject htmlHeadResponse).contentLength =
      htmlHeadResponse.contentLength + INTERCEPTOR_SCRIPT.length :=
  ⟨rfl, fun _ _ => rfl, by decide, by decide, by decide, by decide, by decide⟩

/-- C2 counterexample.  Installing the interceptor twice on the same realm
does not leave exactly one wrapper: the second run captures the first
wrapper as its "original" and nests around it, so both the open chain and
the message-send chain carry two wrappers (and the document carries two
capture-phase click listeners). -/
theorem c2_double_install_nests_wrappers_cex :
    wrapperCount (installInterceptor (installInterceptor realm0)).openImpl = 2 ∧
    ¬ wrapperCount (installInterceptor (installInterceptor realm0)).openImpl = 1 ∧
    ¬ wrapperCount (installInterceptor (installInterceptor realm0)).pmImpl = 1 ∧
    (installInterceptor (installInterceptor realm0)).clickListeners = 2 :=
  ⟨rfl, by decide, by decide, rfl⟩

/-- C2 (amended).  Installation is not idempotent: a second run of
`injectIframeInterceptor` nests a new wrapper around the first, leaving two
active wrappers around `open` and two around the message-send primitive
(and two click listeners); a trusted, nonempty URL still reaches the
pre-patch original exactly once because each wrapper forwards it. -/
theorem c2_double_install_wrapper_counts (url : String)
    (hne : url ≠ "") (htrust : isCaptchaUrl url = true) :
    wrapperCount (installInterceptor (installInterceptor realm0)).openImpl = 2 ∧
    wrapperCount (installInterceptor (installInterceptor realm0)).pmImpl = 2 ∧
    (installInterceptor (installInterceptor realm0)).clickListeners = 2 ∧
    openCallsOriginal (installInterceptor (installInterceptor realm0)).openImpl
      url = 1 := by
  refine ⟨rfl, rfl, rfl, ?_⟩
  simp [installInterceptor, realm0, openCallsOriginal, hne, htrust]

/-- C2 witness: the amended statement at a concrete trusted URL. -/
theorem c2_double_install_wrapper_counts_witness :
    wrapperCount (installInterceptor (installInterceptor realm0)).openImpl = 2 ∧
    wrapperCount (installInterceptor (installInterceptor realm0)).pmImpl = 2 ∧
    (installInterceptor (installInterceptor realm0)).clickListeners = 2 ∧
    openCallsOriginal (installInterceptor (installInterceptor realm0)).openImpl
      "https://www.recaptcha.net/api.js" = 1 :=
  c2_double_install_wrapper_counts "https://www.recaptcha.net/api.js"
    (by decide) (by decide)

/-- C3.  The claim says every realm-access violation during installation —
including the one at bind time on an already-loaded embedding element — is
caught and never propagates.  `injectIframeInterceptor` indeed catches
everything (second conjunct: on a cross-origin realm it is a logged no-op),
but the bind-time probe of `contentWindow.document.readyState` in
`setupIframeInterceptor` (line 544) sits outside any try/catch, so on a
cross-origin already-populated frame the violation propagates to the caller
(first conjunct). -/
theorem c3_bind_time_probe_propagates_violation :
    setupInterceptorAtBind
      { hasContentWindow := true, access := .crossOrigin, readyComplete := true }
      realm0 = .error .realmAccessViolation ∧
    injectInterceptorOn .crossOrigin realm0 = realm0 ∧
    setupInterceptorAtBind
      { hasContentWindow := true, access := .sameOrigin, readyComplete := true }
      realm0 = .ok (installInterceptor realm0) :=
  ⟨rfl, rfl, rfl⟩

/-- C4 counterexample.  An anchor carrying the new-context marker but no
`href` attribute (resolved `href` is the empty string): the click is
suppressed, yet no NavigationIntent at all is emitted — not exactly one as
the claim requires. -/
theorem c4_marker_anchor_without_href_cex :
    handleClick [hrefFreeMarkerAnchor] =
      { defaultPrevented := true, propagationStopped := true,
        navIntents := [] } ∧
    ¬ (handleClick [hrefFreeMarkerAnchor]).navIntents.length = 1 :=
  ⟨rfl, by decide⟩

/-- C4 (amended).  For a pointer activation whose target's nearest enclosing
anchor carries a new-context marker, the capture-phase listener suppresses
the default action and propagation; when that anchor's resolved href is
nonempty, exactly one NavigationIntent fires and the embedding element is
redirected to the encoding of that href (an anchor without an href is
suppressed with no intent). -/
theorem c4_click_interception (encodeURL : String → String)
    (chain : List ElemInfo) (anchor : ElemInfo)
    (hfind : findAnchor chain = some anchor)
    (hmark : isNewContextMarker anchor.targetAttr = true)
    (hhref : anchor.href ≠ "") :
    handleClick chain =
      { defaultPrevented := true, propagationStopped := true,
        navIntents := [anchor.href] } ∧
    clickRedirects encodeURL chain = [encodeURL anchor.href] ∧
    clickListenerUseCapture = true := by
  have h : handleClick chain =
      { defaultPrevented := true, propagationStopped := true,
        navIntents := [anchor.href] } := by
    unfold handleClick
    rw [hfind]
    simp [hmark, hhref]
  exact ⟨h, by simp [clickRedirects, h], rfl⟩

/-- C4 witness: a click on a `SPAN` inside
`<a target="_blank" href="https://x.test/p">`. -/
theorem c4_click_interception_witness :
    handleClick blankChain =
      { defaultPrevented := true, propagationStopped := true,
        navIntents := ["https://x.test/p"] } ∧
    clickRedirects (fun u => u) blankChain = ["https://x.test/p"] ∧
    clickListenerUseCapture = true :=
  c4_click_interception (fun u => u) blankChain
    { tag := "A", targetAttr := some "_blank", href := "https://x.test/p" }
    (by decide) (by decide) (by decide)

/-- C5.  For a nonempty URL the trusted-domain classifier rejects, the
overridden `open` emits exactly one redirect of the embedding element to the
encoded URL and returns the inert stand-in, whose property reads all yield
the empty value and whose property writes all succeed. -/
theorem c5_untrusted_open_redirects_once (encodeURL : String → String)
    (url : String) (target features : Option String)
    (hne : url ≠ "") (htrust : isCaptchaUrl url = false) :
    openViaFrame encodeURL url target features = (.standIn, [encodeURL url]) ∧
    (∀ propertyName : String, proxyGetTrap propertyName = none) ∧
    (∀ (propertyName value : String), proxySetTrap propertyName value = true) := by
  refine ⟨?_, fun _ => rfl, fun _ _ => rfl⟩
  simp [openViaFrame, openOverride, hne, htrust]

/-- C5 witness: an untrusted URL at the identity encoder. -/
theorem c5_untrusted_open_redirects_once_witness :
    openViaFrame (fun u => u) "https://evil.example/p" none none =
      (.standIn, ["https://evil.example/p"]) ∧
    (∀ propertyName : String, proxyGetTrap propertyName = none) ∧
    (∀ (propertyName value : String), proxySetTrap propertyName value = true) :=
  c5_untrusted_open_redirects_once (fun u => u) "https://evil.example/p"
    none none (by decide) (by decide)

/-- C6.  For a nonempty URL the trusted-domain classifier accepts, the
overridden `open` forwards the unmodified arguments to the captured
original, emits no NavigationIntent, and the call reaches the pre-patch
primitive exactly once. -/
theorem c6_trusted_open_forwarded (encodeURL : String → String)
    (url : String) (target features : Option String)
    (hne : url ≠ "") (htrust : isCaptchaUrl url = true) :
    openViaFrame encodeURL url target features =
      (.forwarded url target features, []) ∧
    openCallsOriginal (.wrapper .original) url = 1 := by
  constructor
  · simp [openViaFrame, openOverride, hne, htrust]
  · simp [openCallsOriginal, hne, htrust]

/-- C6 witness: a reCAPTCHA script URL. -/
theorem c6_trusted_open_forwarded_witness :
    openViaFrame (fun u => u) "https://www.gstatic.com/recaptcha/api.js"
      (some "_blank") none =
      (.forwarded "https://www.gstatic.com/recaptcha/api.js"
        (some "_blank") none, []) ∧
    openCallsOriginal (.wrapper .original)
      "https://www.gstatic.com/recaptcha/api.js" = 1 :=
  c6_trusted_open_forwarded (fun u => u)
    "https://www.gstatic.com/recaptcha/api.js" (some "_blank") none
    (by decide) (by decide)

/-- C7 counterexample.  A marker anchor that sits inside an added subtree
whose root is itself an anchor (the DOM allows nested anchors built by
script): the observer's first branch only inspects the root's own attribute
and its second branch is skipped, so the node passes through unchanged and
the inner anchor keeps its new-context marker — it is not removed within the
observation cycle. -/
theorem c7_nested_added_anchor_keeps_marker_cex :
    observeAddedNode nestedAnchorNode = (nestedAnchorNode, []) ∧
    hasMarkedAnchor nestedAnchorNode = true ∧
    hasMarkedAnchor (observeAddedNode nestedAnchorNode).1 = true :=
  ⟨rfl, rfl, rfl⟩

/-- C7 (amended).  For every node the observer sees added: if the node is
not itself an anchor, every marker anchor anywhere in the added subtree
loses its marker in that cycle; if the node is an anchor, only its own
marker attribute is removed (descendants are not scanned); and the observer
emits no NavigationIntent. -/
theorem c7_observer_strips_markers (tag : String) (tAttr : Option String)
    (children : List DomNode) :
    (tag ≠ "A" →
      hasMarkedAnchor (observeAddedNode (.elem tag tAttr children)).1 = false) ∧
    (tag = "A" →
      (observeAddedNode (.elem tag tAttr children)).1 =
        .elem tag (if isNewContextMarker tAttr then none else tAttr) children) ∧
    (observeAddedNode (.elem tag tAttr children)).2 = [] := by
  refine ⟨?_, ?_, ?_⟩
  · intro h
    simp [observeAddedNode, h, hasMarkedAnchor, hasMarkedAnchorList_strip]
  · intro h
    subst h
    simp [observeAddedNode]
  · by_cases h : tag = "A" <;> simp [observeAddedNode, h]

/-- C7 witness: a `DIV` added with a marked anchor inside loses the marker,
with no intent emitted. -/
theorem c7_observer_strips_markers_witness :
    hasMarkedAnchor
      (observeAddedNode (.elem "DIV" none [.elem "A" (some "_blank") []])).1 =
      false ∧
    (observeAddedNode (.elem "DIV" none [.elem "A" (some "_blank") []])).2 =
      [] := by
  have h := c7_observer_strips_markers "DIV" none [.elem "A" (some "_blank") []]
  exact ⟨h.1 (by decide), h.2.2⟩

/-- C8 counterexample.  The open-override and the network-request patching
are not gated by the same classification: the fetch gate of
captcha-handler.ts trusts a bare Google URL that `isCaptchaUrl` rejects, and
— unlike the claim's case-insensitive contract — the fetch gate is
case-sensitive, rejecting the upper-case spelling of a URL it accepts in
lower case. -/
theorem c8_two_distinct_gates_cex :
    isCaptchaRequest "https://google.com/" = true ∧
    isCaptchaUrl "https://google.com/" = false ∧
    isCaptchaRequest "https://GOOGLE.COM/" = false :=
  ⟨by decide, by decide, by decide⟩

/-- C8 (amended).  Each gate is a pure total substring predicate over its
own fixed allowlist: `isCaptchaUrl` (gating the open-override) lowercases
the URL first — an effectively case-insensitive match over its five-entry
list — while the network-request patching is gated by `isCaptchaRequest`, a
case-sensitive match over a distinct nine-entry list; a URL rejected by its
gate leaves the fetch init untouched, and the open-override forwards a
nonempty URL exactly when `isCaptchaUrl` accepts it. -/
theorem c8_classifier_gates (url : String) (init : FetchInit) :
    isCaptchaUrl url =
      CAPTCHA_DOMAINS.any (fun domain => strIncludes (strLower url) domain) ∧
    isCaptchaRequest url =
      CAPTCHA_DOMAINS_NET.any (fun domain => strIncludes url domain) ∧
    (isCaptchaRequest url = false → enhanceFetchInit url init = init) ∧
    (url ≠ "" →
      ((openOverride url none none).1 = .forwarded url none none ↔
        isCaptchaUrl url = true)) := by
  refine ⟨rfl, rfl, ?_, ?_⟩
  · intro h
    simp [enhanceFetchInit, h]
  · intro hne
    cases htrust : isCaptchaUrl url <;> simp [openOverride, hne, htrust]

/-- C8 witness: the amended statement at a concrete URL and init. -/
theorem c8_classifier_gates_witness :
    enhanceFetchInit "https://example.org/page"
      { credentials := none, acceptHeader := none, mode := none } =
      { credentials := none, acceptHeader := none, mode := none } ∧
    ((openOverride "https://hcaptcha.com/1/api.js" none none).1 =
      .forwarded "https://hcaptcha.com/1/api.js" none none ↔
      isCaptchaUrl "https://hcaptcha.com/1/api.js" = true) := by
  have h := c8_classifier_gates "https://example.org/page"
    { credentials := none, acceptHeader := none, mode := none }
  have h2 := c8_classifier_gates "https://hcaptcha.com/1/api.js"
    { credentials := none, acceptHeader := none, mode := none }
  exact ⟨h.2.2.1 (by decide), h2.2.2.2 (by decide)⟩

/-- C9 counterexample.  The data-clone path is not the only error the
sanitizer surfaces: a primitive failing with a non-clone error (say a
`SyntaxError` for a malformed target origin) has its error rethrown to the
caller at once — the transcript shows a single invocation, no retry. -/
theorem c9_nonclone_error_surfaces_cex :
    wrappedPostMessage primAlwaysOther capsAll [] =
      (.error .otherErr, [some []]) ∧
    ¬ (wrappedPostMessage primAlwaysOther capsAll []).2.length = 2 :=
  ⟨rfl, by simp [wrappedPostMessage, primAlwaysOther]⟩

/-- C9 (amended).  When the forwarded invocation fails with the data-clone
violation, the send is retried exactly once with the transfer list removed
and the retry's outcome — success, or the error it raises — is what the
caller sees; a successful first attempt is passed through; any non-clone
error from the forwarded invocation propagates immediately, without a
retry, so the data-clone path is not the only surfaced error. -/
theorem c9_dataclone_retry
    (prim : Option (List Transferable) → Except PMErr Unit)
    (caps : RuntimeCaps) (transfer : List Transferable) :
    (prim (some (filterValidTransferables caps transfer)) = .error .dataClone →
      wrappedPostMessage prim caps transfer =
        (prim none, [some (filterValidTransferables caps transfer), none])) ∧
    (prim (some (filterValidTransferables caps transfer)) = .ok () →
      wrappedPostMessage prim caps transfer =
        (.ok (), [some (filterValidTransferables caps transfer)])) ∧
    (prim (some (filterValidTransferables caps transfer)) = .error .otherErr →
      wrappedPostMessage prim caps transfer =
        (.error .otherErr, [some (filterValidTransferables caps transfer)])) := by
  refine ⟨?_, ?_, ?_⟩ <;> intro h
  · cases hr : prim none <;> simp [wrappedPostMessage, h, hr]
  · simp [wrappedPostMessage, h]
  · simp [wrappedPostMessage, h]

/-- C9 witness: a primitive that raises the data-clone violation on both
attempts — one retry without the transfer list, then the violation
surfaces. -/
theorem c9_dataclone_retry_witness :
    wrappedPostMessage primAlwaysClone capsAll
      [Transferable.plainObject 0, Transferable.arrayBuffer 1] =
      (.error .dataClone, [some [Transferable.arrayBuffer 1], none]) := by
  have h := (c9_dataclone_retry primAlwaysClone capsAll
    [Transferable.plainObject 0, Transferable.arrayBuffer 1]).1 rfl
  exact h

/-- C10.  In either calling convention the sanitizer forwards exactly the
legally transferable entries of the original transfer list, in order: the
forwarded list is the filter of the original by the capability-tested
predicate, it is a sublist (order preserved), membership is original
membership plus validity, and the scenario list of one binary buffer and
one plain object forwards only the buffer. -/
theorem c10_transfer_list_filtering (caps : RuntimeCaps)
    (targetOrigin : Option String) (transfer : List Transferable) :
    conventionForwardedTransfer caps (.oldSig targetOrigin (some transfer)) =
      some (transfer.filter (isValidTransferable caps)) ∧
    conventionForwardedTransfer caps (.newSig (some transfer)) =
      some (transfer.filter (isValidTransferable caps)) ∧
    (transfer.filter (isValidTransferable caps)).Sublist transfer ∧
    (∀ item : Transferable,
      item ∈ transfer.filter (isValidTransferable caps) ↔
        item ∈ transfer ∧ isValidTransferable caps item = true) ∧
    filterValidTransferables capsAll
      [Transferable.arrayBuffer 0, Transferable.plainObject 1] =
      [Transferable.arrayBuffer 0] := by
  refine ⟨rfl, rfl, List.filter_sublist _, ?_, by decide⟩
  intro item
  exact List.mem_filter

end Radius
